import Mathlib

/-!
Shallow embedding of the FxDK project-explorer `Resource` component
(`Resource.tsx`) and the `renderedIf` convenience helper
(`cfx/utils/convenience.tsx`), together with theorems checking the
natural-language specification against this embedding.

The embedding translates the view-state and command-dispatch logic of
`useResourceLifecycle`, the watch-command status indicator of
`ResourceStatusNode`, and the modal open-flag state of the `Resource`
component into pure Lean functions.  Rendering concerns (CSS classes,
JSX layout) are out of scope; menu entries, dispatched API messages and
the status indicator are modelled structurally.
-/

namespace FxdkResource

/-- One watch command's runtime state: `{ running: boolean }`. -/
structure WatchCommandState where
  running : Bool
  deriving DecidableEq

/-- `ResourceStatus` from `resource-types`: `watchCommands` is a mapping from
command id to its state; modelled as an association list whose `Object.values`
is the list of second components. -/
structure ResourceStatus where
  watchCommands : List (String × WatchCommandState)
  deriving DecidableEq

/-- `ProjectResource` config as consumed here: the two optional boolean
fields read by `useResourceLifecycle`.  `none` models an absent key. -/
structure ProjectResource where
  enabled : Option Bool
  restartOnChange : Option Bool
  deriving DecidableEq

/-- The slice of the `ServerState` store read by this component:
`isUp` and the per-name `isResourceRunning` query. -/
structure ServerState where
  isUp : Bool
  isResourceRunning : String → Bool

/-- Icon constants used by the component (opaque tokens). -/
inductive Icon where
  | startIcon
  | stopIcon
  | refreshIcon
  | enabledResourceIcon
  | disabledResourceIcon
  | deleteIcon
  | renameIcon
  | resourceIcon
  | bsSquare
  | bsCheckBox
  | bsFillEyeFill
  deriving DecidableEq

/-- The API endpoint identifiers dispatched by this component:
`projectApi.setResourceConfig` and `serverApi.{start,stop,restart}Resource`. -/
inductive ApiEndpointId where
  | setResourceConfig
  | startResource
  | stopResource
  | restartResource
  deriving DecidableEq

/-- The `config` part of a `ProjectSetResourceConfigRequest`: a partial
patch; `none` models a key that is absent from the object literal. -/
structure ResourceConfigPatch where
  enabled : Option Bool
  restartOnChange : Option Bool
  deriving DecidableEq

/-- `ProjectSetResourceConfigRequest` from `shared/api.requests`. -/
structure ProjectSetResourceConfigRequest where
  resourceName : String
  config : ResourceConfigPatch
  deriving DecidableEq

/-- The payload of a dispatched API message: either a set-resource-config
request or the bare resource name. -/
inductive ApiPayload where
  | configRequest (req : ProjectSetResourceConfigRequest)
  | resourceName (name : String)
  deriving DecidableEq

/-- One `sendApiMessage(endpoint, payload)` call. -/
structure ApiMessage where
  endpoint : ApiEndpointId
  payload : ApiPayload
  deriving DecidableEq

/-- What an `onClick` handler of a lifecycle menu entry does when
activated: dispatch a message, or open the commands-output modal. -/
inductive ClickAction where
  | dispatch (msg : ApiMessage)
  | openCommandsOutput
  deriving DecidableEq

/-- A context-menu item: `{id, icon, text, disabled?, onClick}`.  An item
whose literal carries no `disabled` key is modelled with `disabled := false`
(the `undefined` key is falsy). -/
structure MenuItem where
  id : String
  icon : Icon
  text : String
  disabled : Bool
  onClick : ClickAction
  deriving DecidableEq

/-- An element of a `ContextMenuItemsCollection`: a separator or an item. -/
inductive MenuEntry where
  | separator
  | item (it : MenuItem)
  deriving DecidableEq

/-- `const isEnabled = !!resourceConfig?.enabled` — optional chaining on a
possibly absent config, double negation making an absent or falsy field
`false`. -/
def isEnabled (resourceConfig : Option ProjectResource) : Bool :=
  ((resourceConfig.map ProjectResource.enabled).getD none).getD false

/-- `const isAutorestartOnChangeEnabled = !!resourceConfig?.restartOnChange`. -/
def isAutorestartOnChangeEnabled (resourceConfig : Option ProjectResource) : Bool :=
  ((resourceConfig.map ProjectResource.restartOnChange).getD none).getD false

/-- `handleToggleEnabled`: builds a `ProjectSetResourceConfigRequest` whose
config literal holds only `enabled: !isEnabled`, and sends it to
`projectApi.setResourceConfig`. -/
def handleToggleEnabled (resourceName : String) (isEnabledNow : Bool) : ApiMessage :=
  { endpoint := .setResourceConfig
    payload := .configRequest
      { resourceName := resourceName
        config := { enabled := some (!isEnabledNow), restartOnChange := none } } }

/-- `handleToggleAutorestartEnabled`: builds a request whose config literal
holds only `restartOnChange: !isAutorestartOnChangeEnabled`. -/
def handleToggleAutorestartEnabled (resourceName : String) (isAutorestartNow : Bool) : ApiMessage :=
  { endpoint := .setResourceConfig
    payload := .configRequest
      { resourceName := resourceName
        config := { enabled := none, restartOnChange := some (!isAutorestartNow) } } }

/-- `handleRestart`: `sendApiMessage(serverApi.restartResource, resourceName)`. -/
def handleRestart (resourceName : String) : ApiMessage :=
  { endpoint := .restartResource, payload := .resourceName resourceName }

/-- `handleStop`: `sendApiMessage(serverApi.stopResource, resourceName)`. -/
def handleStop (resourceName : String) : ApiMessage :=
  { endpoint := .stopResource, payload := .resourceName resourceName }

/-- `handleStart`: `sendApiMessage(serverApi.startResource, resourceName)`. -/
def handleStart (resourceName : String) : ApiMessage :=
  { endpoint := .startResource, payload := .resourceName resourceName }

/-- The `lifecycleContextMenuItems` memo of `useResourceLifecycle`, as a pure
function of the values it closes over. -/
def lifecycleContextMenuItems (resourceName : String) (serverIsNotUp : Bool)
    (resourceIsRunning : Bool) (isEnabledNow : Bool) (isAutorestartNow : Bool)
    (resourceStatus : ResourceStatus) : List MenuEntry :=
  let serverRelatedItems : List MenuEntry :=
    if resourceIsRunning then
      [.item { id := "stop", icon := .stopIcon, text := "Stop",
               disabled := serverIsNotUp, onClick := .dispatch (handleStop resourceName) },
       .item { id := "restart", icon := .refreshIcon, text := "Restart",
               disabled := serverIsNotUp, onClick := .dispatch (handleRestart resourceName) }]
    else
      [.item { id := "Start", icon := .startIcon, text := "Start",
               disabled := serverIsNotUp, onClick := .dispatch (handleStart resourceName) }]
  let fxdkCommandsItems : List MenuEntry :=
    if (resourceStatus.watchCommands.map Prod.snd).length ≠ 0 then
      [.separator,
       .item { id := "open-watch-commands-output", icon := .bsFillEyeFill,
               text := "Watch commands output", disabled := false,
               onClick := .openCommandsOutput }]
    else
      []
  serverRelatedItems ++
    [.separator,
     .item { id := "toggle-enabled"
             icon := if isEnabledNow then .disabledResourceIcon else .enabledResourceIcon
             text := if isEnabledNow then "Disable resource" else "Enable resource"
             disabled := false
             onClick := .dispatch (handleToggleEnabled resourceName isEnabledNow) },
     .item { id := "toggle-autorestart-enabled"
             icon := if isAutorestartNow then .bsSquare else .bsCheckBox
             text := if isAutorestartNow then "Disable restart on change"
                     else "Enable restart on change"
             disabled := false
             onClick := .dispatch (handleToggleAutorestartEnabled resourceName isAutorestartNow) }]
    ++ fxdkCommandsItems

/-- The view-model slice returned by `useResourceLifecycle` that the claims
are about (the modal flag is modelled separately, see `ModalFlags`). -/
structure LifecycleViewModel where
  resourceIsEnabled : Bool
  resourceIsRunning : Bool
  menuItems : List MenuEntry
  deriving DecidableEq

/-- `useResourceLifecycle(resourceName, resourceConfig, resourceStatus)`:
derives `serverIsNotUp` and `resourceIsRunning` from the `ServerState`
store, the enabled/autorestart flags from the config, and assembles the
lifecycle context-menu items. -/
def useResourceLifecycle (resourceName : String) (resourceConfig : Option ProjectResource)
    (resourceStatus : ResourceStatus) (server : ServerState) : LifecycleViewModel :=
  let serverIsNotUp := !server.isUp
  let resourceIsRunning := server.isResourceRunning resourceName
  { resourceIsEnabled := isEnabled resourceConfig
    resourceIsRunning := resourceIsRunning
    menuItems := lifecycleContextMenuItems resourceName serverIsNotUp resourceIsRunning
      (isEnabled resourceConfig) (isAutorestartOnChangeEnabled resourceConfig) resourceStatus }

/-- First menu item in the collection carrying the given id, skipping
separators. -/
def findMenuItem : List MenuEntry → String → Option MenuItem
  | [], _ => none
  | .separator :: rest, target => findMenuItem rest target
  | .item it :: rest, target =>
    if it.id = target then some it else findMenuItem rest target

/-- The id carried by a menu entry (`none` for a separator). -/
def menuEntryId : MenuEntry → Option String
  | .separator => none
  | .item it => some it.id

/-- What `ResourceStatusNode` renders: nothing, or a `running/total`
indicator. -/
inductive RenderedStatus where
  | empty
  | indicator (running : Nat) (total : Nat)
  deriving DecidableEq

/-- `ResourceStatusNode`: `Object.values(resourceStatus.watchCommands)`;
if the list is non-empty (truthy length) render
`filter(running).length "/" length`, else render nothing. -/
def ResourceStatusNode (resourceStatus : ResourceStatus) : RenderedStatus :=
  let watchCommands := resourceStatus.watchCommands.map Prod.snd
  if watchCommands.length ≠ 0 then
    .indicator (watchCommands.filter (fun cmd => cmd.running)).length watchCommands.length
  else
    .empty

/-- Modelled from the spec: `useOpenFlag` (imported from `utils/hooks`, whose
source is not among the visible files) backs each modal flag.  Per the spec,
the local modal-open/closed flags (`deleterOpen`, `renamerOpen`,
`commandsOutputOpen`) are independent boolean toggles, each with its own
open/close pair, initial value `false`, no cross-dependencies.  The three
flags are gathered into one local state record. -/
structure ModalFlags where
  deleterOpen : Bool
  renamerOpen : Bool
  commandsOutputOpen : Bool
  deriving DecidableEq

/-- The three `useOpenFlag(false)` calls: every flag starts closed. -/
def initialModalFlags : ModalFlags :=
  { deleterOpen := false, renamerOpen := false, commandsOutputOpen := false }

/-- An action on the local modal state paired with the list of API messages
it sends through the dispatch channel while running. -/
def openDeleter (s : ModalFlags) : ModalFlags × List ApiMessage :=
  ({ s with deleterOpen := true }, [])

/-- Close half of the deleter open/close pair. -/
def closeDeleter (s : ModalFlags) : ModalFlags × List ApiMessage :=
  ({ s with deleterOpen := false }, [])

/-- Open half of the renamer open/close pair. -/
def openRenamer (s : ModalFlags) : ModalFlags × List ApiMessage :=
  ({ s with renamerOpen := true }, [])

/-- Close half of the renamer open/close pair. -/
def closeRenamer (s : ModalFlags) : ModalFlags × List ApiMessage :=
  ({ s with renamerOpen := false }, [])

/-- Open half of the commands-output open/close pair
(the `onClick` of the watch-commands menu entry). -/
def openCommandsOutput (s : ModalFlags) : ModalFlags × List ApiMessage :=
  ({ s with commandsOutputOpen := true }, [])

/-- Close half of the commands-output open/close pair. -/
def closeCommandsOutput (s : ModalFlags) : ModalFlags × List ApiMessage :=
  ({ s with commandsOutputOpen := false }, [])

/-- `renderedIf(precondition, Component)` from `cfx/utils/convenience.tsx`:
the returned component renders `null` when the precondition fails, and
`<Component {...props} />` otherwise.  `none` models `null`; `some r` models
a rendered element `r`. -/
def renderedIf {Props Rendered : Type} (precondition : Unit → Bool)
    (Component : Props → Rendered) : Props → Option Rendered :=
  fun props =>
    if !precondition () then
      none
    else
      some (Component props)

/-- Claim C1: for every view-model state, the lifecycle context menu contains
a `Start` entry iff the resource is not running, and `Stop` / `Restart`
entries iff it is running; each entry's activation dispatches its fixed
endpoint (`serverApi.startResource` / `stopResource` / `restartResource`)
with the bare resource name as payload. -/
theorem start_stop_restart_presence_and_dispatch (name : String)
    (cfg : Option ProjectResource) (st : ResourceStatus) (srv : ServerState) :
    (findMenuItem (useResourceLifecycle name cfg st srv).menuItems "Start"
      = if srv.isResourceRunning name then none
        else some ⟨"Start", Icon.startIcon, "Start", !srv.isUp,
                   ClickAction.dispatch ⟨ApiEndpointId.startResource,
                     ApiPayload.resourceName name⟩⟩)
    ∧ (findMenuItem (useResourceLifecycle name cfg st srv).menuItems "stop"
      = if srv.isResourceRunning name
        then some ⟨"stop", Icon.stopIcon, "Stop", !srv.isUp,
                   ClickAction.dispatch ⟨ApiEndpointId.stopResource,
                     ApiPayload.resourceName name⟩⟩
        else none)
    ∧ (findMenuItem (useResourceLifecycle name cfg st srv).menuItems "restart"
      = if srv.isResourceRunning name
        then some ⟨"restart", Icon.refreshIcon, "Restart", !srv.isUp,
                   ClickAction.dispatch ⟨ApiEndpointId.restartResource,
                     ApiPayload.resourceName name⟩⟩
        else none) := by
  cases hr : srv.isResourceRunning name <;>
    cases hw : st.watchCommands <;>
      simp [useResourceLifecycle, lifecycleContextMenuItems, findMenuItem,
        handleStart, handleStop, handleRestart, hr, hw]

/-- Claim C2: whenever the server connection is not up, the start/stop/restart
lifecycle commands that the menu carries are present but marked disabled, and
no lifecycle command is omitted because the server is down: the sequence of
entry ids is the same as with the server up. -/
theorem lifecycle_commands_disabled_not_hidden_when_server_down (name : String)
    (cfg : Option ProjectResource) (st : ResourceStatus)
    (srv : ServerState) (h : srv.isUp = false) :
    (∀ it : MenuItem, MenuEntry.item it ∈ (useResourceLifecycle name cfg st srv).menuItems →
      (it.id = "Start" ∨ it.id = "stop" ∨ it.id = "restart") → it.disabled = true)
    ∧ (if srv.isResourceRunning name
        then (findMenuItem (useResourceLifecycle name cfg st srv).menuItems "stop").isSome = true
          ∧ (findMenuItem (useResourceLifecycle name cfg st srv).menuItems "restart").isSome = true
        else (findMenuItem (useResourceLifecycle name cfg st srv).menuItems "Start").isSome = true)
    ∧ ((useResourceLifecycle name cfg st srv).menuItems.map menuEntryId
        = (useResourceLifecycle name cfg st { srv with isUp := true }).menuItems.map menuEntryId) := by
  cases hr : srv.isResourceRunning name <;>
    cases hw : st.watchCommands <;>
      simp [useResourceLifecycle, lifecycleContextMenuItems, findMenuItem, menuEntryId,
        handleStart, handleStop, handleRestart, h, hr, hw]

/-- Concrete instance of
`lifecycle_commands_disabled_not_hidden_when_server_down`: a stopped
resource on a downed server still shows its `Start` entry. -/
theorem lifecycle_commands_disabled_not_hidden_when_server_down_witness :
    (findMenuItem (useResourceLifecycle "a" none ⟨[]⟩
      ⟨false, fun _ => false⟩).menuItems "Start").isSome = true :=
  (lifecycle_commands_disabled_not_hidden_when_server_down "a" none ⟨[]⟩
    ⟨false, fun _ => false⟩ rfl).2.1

/-- Claim C3: activating `toggleEnabled` dispatches a
`project.setResourceConfig` request whose config holds `enabled` equal to the
negation of the current derived `isEnabled` (so `enabled: true` exactly when
the current value is `false`, and vice versa); likewise `toggleAutorestart`
dispatches `restartOnChange` equal to the negation of the current
`isAutorestartOnChangeEnabled`. -/
theorem toggle_commands_dispatch_negated_config (name : String)
    (cfg : Option ProjectResource) (st : ResourceStatus) (srv : ServerState) :
    (Option.map MenuItem.onClick
        (findMenuItem (useResourceLifecycle name cfg st srv).menuItems "toggle-enabled")
      = some (ClickAction.dispatch
          ⟨ApiEndpointId.setResourceConfig,
           ApiPayload.configRequest ⟨name, ⟨some (!isEnabled cfg), none⟩⟩⟩))
    ∧ (Option.map MenuItem.onClick
        (findMenuItem (useResourceLifecycle name cfg st srv).menuItems "toggle-autorestart-enabled")
      = some (ClickAction.dispatch
          ⟨ApiEndpointId.setResourceConfig,
           ApiPayload.configRequest ⟨name, ⟨none, some (!isAutorestartOnChangeEnabled cfg)⟩⟩⟩)) := by
  cases hr : srv.isResourceRunning name <;>
    cases hw : st.watchCommands <;>
      simp [useResourceLifecycle, lifecycleContextMenuItems, findMenuItem,
        handleToggleEnabled, handleToggleAutorestartEnabled, hr, hw]

/-- Claim C4: the derived `isEnabled` / `isAutorestartOnChangeEnabled` flags
are `true` exactly when the config is present and the corresponding field is
present and truthy, and `false` whenever the config is absent or the field
is absent or falsy; the view model's `resourceIsEnabled` is that derived
flag. -/
theorem derived_flags_present_and_truthy (cfg : Option ProjectResource)
    (name : String) (st : ResourceStatus) (srv : ServerState) :
    ((useResourceLifecycle name cfg st srv).resourceIsEnabled = isEnabled cfg)
    ∧ (isEnabled cfg = true ↔ ∃ c, cfg = some c ∧ c.enabled = some true)
    ∧ (isEnabled cfg = false ↔
        cfg = none ∨ ∃ c, cfg = some c ∧ (c.enabled = none ∨ c.enabled = some false))
    ∧ (isAutorestartOnChangeEnabled cfg = true ↔
        ∃ c, cfg = some c ∧ c.restartOnChange = some true)
    ∧ (isAutorestartOnChangeEnabled cfg = false ↔
        cfg = none ∨ ∃ c, cfg = some c ∧
          (c.restartOnChange = none ∨ c.restartOnChange = some false)) := by
  rcases cfg with _ | ⟨e, r⟩
  · simp [useResourceLifecycle, isEnabled, isAutorestartOnChangeEnabled]
  · rcases e with _ | b <;> rcases r with _ | b2 <;> try cases b <;> try cases b2
    all_goals simp [useResourceLifecycle, isEnabled, isAutorestartOnChangeEnabled]

/-- Claim C5: the derived `resourceIsRunning` flag equals the connectivity
store's `isResourceRunning` query for the resource name, so any two
view-model evaluations differing only in the config (in particular in its
`enabled` field) or in the status yield the same `resourceIsRunning`. -/
theorem isRunning_depends_only_on_connectivity (name : String)
    (cfg cfg2 : Option ProjectResource) (st st2 : ResourceStatus)
    (srv : ServerState) :
    (useResourceLifecycle name cfg st srv).resourceIsRunning = srv.isResourceRunning name
    ∧ (useResourceLifecycle name cfg st srv).resourceIsRunning
      = (useResourceLifecycle name cfg2 st2 srv).resourceIsRunning := by
  simp [useResourceLifecycle]

/-- Claim C6: the watch-commands indicator renders
`running-count / total-count` over the values of `watchCommands` and renders
nothing at all when `watchCommands` is empty; the `Watch commands output`
menu entry is present exactly when `watchCommands` is non-empty. -/
theorem watch_commands_indicator_and_menu_entry (name : String)
    (cfg : Option ProjectResource) (st : ResourceStatus) (srv : ServerState) :
    (st.watchCommands = [] → ResourceStatusNode st = .empty)
    ∧ (st.watchCommands ≠ [] →
        ResourceStatusNode st =
          .indicator ((st.watchCommands.map Prod.snd).filter (fun c => c.running)).length
            (st.watchCommands.map Prod.snd).length)
    ∧ ((findMenuItem (useResourceLifecycle name cfg st srv).menuItems
          "open-watch-commands-output").isSome = !st.watchCommands.isEmpty) := by
  cases hr : srv.isResourceRunning name <;>
    cases hw : st.watchCommands <;>
      simp [useResourceLifecycle, lifecycleContextMenuItems, findMenuItem,
        ResourceStatusNode, hr, hw]

/-- Claim C7: the `toggle-enabled` and `toggle-autorestart-enabled` entries
are never disabled (whatever the server connectivity), and their label and
icon are the inversion of the current state: label `Disable resource` with
the disabled-resource icon exactly when `isEnabled` holds, and
correspondingly for restart-on-change. -/
theorem toggle_entries_always_enabled_inverted_labels (name : String)
    (cfg : Option ProjectResource) (st : ResourceStatus) (srv : ServerState) :
    findMenuItem (useResourceLifecycle name cfg st srv).menuItems "toggle-enabled"
      = some ⟨"toggle-enabled",
              (if isEnabled cfg then Icon.disabledResourceIcon else Icon.enabledResourceIcon),
              (if isEnabled cfg then "Disable resource" else "Enable resource"),
              false,
              ClickAction.dispatch (handleToggleEnabled name (isEnabled cfg))⟩
    ∧ findMenuItem (useResourceLifecycle name cfg st srv).menuItems "toggle-autorestart-enabled"
      = some ⟨"toggle-autorestart-enabled",
              (if isAutorestartOnChangeEnabled cfg then Icon.bsSquare else Icon.bsCheckBox),
              (if isAutorestartOnChangeEnabled cfg then "Disable restart on change"
               else "Enable restart on change"),
              false,
              ClickAction.dispatch (handleToggleAutorestartEnabled name
                (isAutorestartOnChangeEnabled cfg))⟩ := by
  cases hr : srv.isResourceRunning name <;>
    cases hw : st.watchCommands <;>
      simp [useResourceLifecycle, lifecycleContextMenuItems, findMenuItem, hr, hw]

/-- Claim C8: opening the delete or rename modal is a purely local state
transition — no API message is sent by any open/close action — and the three
modal flags start `false` and are each changed only by their own open/close
pair, the other two flags being left untouched. -/
theorem modal_flags_local_and_independent (s : ModalFlags) :
    initialModalFlags.deleterOpen = false ∧ initialModalFlags.renamerOpen = false
    ∧ initialModalFlags.commandsOutputOpen = false
    ∧ (openDeleter s).2 = [] ∧ (closeDeleter s).2 = []
    ∧ (openRenamer s).2 = [] ∧ (closeRenamer s).2 = []
    ∧ (openCommandsOutput s).2 = [] ∧ (closeCommandsOutput s).2 = []
    ∧ (openDeleter s).1.deleterOpen = true
    ∧ (openDeleter s).1.renamerOpen = s.renamerOpen
    ∧ (openDeleter s).1.commandsOutputOpen = s.commandsOutputOpen
    ∧ (closeDeleter s).1.deleterOpen = false
    ∧ (closeDeleter s).1.renamerOpen = s.renamerOpen
    ∧ (closeDeleter s).1.commandsOutputOpen = s.commandsOutputOpen
    ∧ (openRenamer s).1.renamerOpen = true
    ∧ (openRenamer s).1.deleterOpen = s.deleterOpen
    ∧ (openRenamer s).1.commandsOutputOpen = s.commandsOutputOpen
    ∧ (closeRenamer s).1.renamerOpen = false
    ∧ (closeRenamer s).1.deleterOpen = s.deleterOpen
    ∧ (closeRenamer s).1.commandsOutputOpen = s.commandsOutputOpen
    ∧ (openCommandsOutput s).1.commandsOutputOpen = true
    ∧ (openCommandsOutput s).1.deleterOpen = s.deleterOpen
    ∧ (openCommandsOutput s).1.renamerOpen = s.renamerOpen
    ∧ (closeCommandsOutput s).1.commandsOutputOpen = false
    ∧ (closeCommandsOutput s).1.deleterOpen = s.deleterOpen
    ∧ (closeCommandsOutput s).1.renamerOpen = s.renamerOpen := by
  simp [initialModalFlags, openDeleter, closeDeleter, openRenamer, closeRenamer,
    openCommandsOutput, closeCommandsOutput]

/-- Claim C9: the component returned by `renderedIf(p, C)` renders nothing
(`null`) when `p()` is false, and renders `C` with exactly the props it was
given when `p()` is true. -/
theorem renderedIf_renders_iff_predicate {Props Rendered : Type}
    (precondition : Unit → Bool) (Component : Props → Rendered) (props : Props) :
    (precondition () = false → renderedIf precondition Component props = none)
    ∧ (precondition () = true →
        renderedIf precondition Component props = some (Component props)) := by
  cases h : precondition () <;> simp [renderedIf, h]

/-- Claim C10: each toggle handler builds a partial config patch holding only
its own field — `handleToggleEnabled`'s request carries an `enabled` key and
no `restartOnChange` key, `handleToggleAutorestartEnabled`'s the opposite —
and both requests carry the resource name. -/
theorem toggle_requests_contain_only_own_field (name : String) (e a : Bool) :
    ((handleToggleEnabled name e).endpoint = ApiEndpointId.setResourceConfig
      ∧ ∃ req, (handleToggleEnabled name e).payload = ApiPayload.configRequest req
          ∧ req.resourceName = name ∧ (req.config.enabled).isSome = true
          ∧ req.config.restartOnChange = none)
    ∧ ((handleToggleAutorestartEnabled name a).endpoint = ApiEndpointId.setResourceConfig
      ∧ ∃ req, (handleToggleAutorestartEnabled name a).payload = ApiPayload.configRequest req
          ∧ req.resourceName = name ∧ req.config.enabled = none
          ∧ (req.config.restartOnChange).isSome = true) := by
  simp [handleToggleEnabled, handleToggleAutorestartEnabled]

end FxdkResource
